import Mathlib

/-!
Verification of the container teardown coordinator
(`src/core/container_remove.go` of cri-dockerd).

We shallow-embed the Go code: the per-service mutable map
`containerCleanupInfos : map[string]*containerCleanupInfo` becomes a
function `String → Option (Option containerCleanupInfo)` (the outer
`Option` is presence in the map, the inner `Option` is the Go pointer
which may be `nil`); the collaborators that the file calls but does not
define (`removeContainerLogSymlink`, the docker client's
`RemoveContainer`, and the per-platform override of
`performPlatformSpecificContainerCleanup`) become behaviour fields on
the `dockerService` record.  Each Go function that mutates the map or
performs collaborator calls becomes a pure function returning the new
registry together with an explicit trace of the collaborator calls and
the logged errors, so that "never invoked" claims are statable.
-/

/-- Go struct `containerCleanupInfo` (empty on this platform; opaque
per-container cleanup metadata). -/
structure containerCleanupInfo : Type

instance : DecidableEq containerCleanupInfo :=
  fun a b => isTrue (by cases a; cases b; rfl)

/-- The `containerCleanupInfos` map of `dockerService`:
`map[string]*containerCleanupInfo`.  `none` means the key is absent;
`some p` means the key maps to the pointer `p`, where `p = none` models
the Go `nil` pointer. -/
abbrev Registry : Type := String → Option (Option containerCleanupInfo)

/-- Go `types.ContainerRemoveOptions` (the two fields used by the code). -/
structure ContainerRemoveOptions where
  RemoveVolumes : Bool
  Force : Bool
deriving DecidableEq, Repr

/-- Go `v1.RemoveContainerRequest` (the one field used by the code). -/
structure RemoveContainerRequest where
  ContainerId : String
deriving DecidableEq, Repr

/-- Go `v1.RemoveContainerResponse` (empty message). -/
structure RemoveContainerResponse : Type

instance : DecidableEq RemoveContainerResponse :=
  fun a b => isTrue (by cases a; cases b; rfl)

/-- Error values returned by `RemoveContainer`.  `Err` is the type of
errors produced by collaborators (the Go `error` interface).
`raw e` is an error returned verbatim (the log-symlink path);
`failedPlatformCleanups id errs` embeds
`fmt.Errorf("failed to run platform-specific clean ups for container %q: %v", id, errs)`;
`failedRemove id e` embeds
`fmt.Errorf("failed to remove container %q: %v", id, e)`. -/
inductive goError (Err : Type) : Type where
  | raw (e : Err)
  | failedPlatformCleanups (containerId : String) (errs : List Err)
  | failedRemove (containerId : String) (e : Err)
deriving DecidableEq, Repr

/-- The `dockerService` receiver: its registry state plus the behaviour
of the collaborators the file calls but does not define.

Modelled from the spec: `removeContainerLogSymlink` and the docker
client's `RemoveContainer` live outside this file (spec §6:
"Log-symlink remover: RemoveContainerLogSymlink(containerID) -> error",
"Backend removal call: RemoveContainer(containerID, options) -> error"),
and `performPlatformSpecificContainerCleanup` is the pluggable
per-platform capability (spec §6: "Cleanup(metadata) -> []error";
"default implementation is a no-op returning no errors" — see
`performPlatformSpecificContainerCleanup_default` below for the
in-file default).  A collaborator returning `none` models a `nil`
Go error (success); `some e` models failure with error `e`. -/
structure dockerService (Err : Type) where
  containerCleanupInfos : Registry
  removeContainerLogSymlink : String → Option Err
  performPlatformSpecificContainerCleanup : Option containerCleanupInfo → List Err
  clientRemoveContainer : String → ContainerRemoveOptions → Option Err

/-- The in-file platform stub: `performPlatformSpecificContainerCleanup`
as defined in this source file returns an empty error collection. -/
def performPlatformSpecificContainerCleanup_default (Err : Type) :
    Option containerCleanupInfo → List Err :=
  fun _ => []

/-- Go `getContainerCleanupInfo`: `info, ok := ds.containerCleanupInfos[containerID]`.
On a missing key the Go map read yields the zero value (`nil` pointer)
and `ok = false`. -/
def getContainerCleanupInfo (reg : Registry) (containerID : String) :
    Option containerCleanupInfo × Bool :=
  match reg containerID with
  | some info => (info, true)
  | none => (none, false)

/-- Go `setContainerCleanupInfo`: `ds.containerCleanupInfos[containerID] = info`. -/
def setContainerCleanupInfo (reg : Registry) (containerID : String)
    (info : Option containerCleanupInfo) : Registry :=
  fun k => if k = containerID then some info else reg k

/-- Go `clearContainerCleanupInfo`: `delete(ds.containerCleanupInfos, containerID)`. -/
def clearContainerCleanupInfo (reg : Registry) (containerID : String) : Registry :=
  fun k => if k = containerID then none else reg k

/-- Result of `performPlatformSpecificContainerCleanupAndLogErrors`:
the returned error slice, plus a trace of the calls made to the
pluggable cleanup capability and of the errors logged via
`logrus.Infof`. -/
structure cleanupExecResult (Err : Type) where
  errors : List Err
  capabilityCalls : List (Option containerCleanupInfo)
  loggedErrors : List (String × Err)
deriving DecidableEq

/-- Go `performPlatformSpecificContainerCleanupAndLogErrors`:
returns `nil` at once when `cleanupInfo == nil`; otherwise calls
`ds.performPlatformSpecificContainerCleanup(cleanupInfo)`, logs every
returned error tagged with the container identifier, and returns the
error slice. -/
def performPlatformSpecificContainerCleanupAndLogErrors (Err : Type)
    (ds : dockerService Err) (containerNameOrID : String)
    (cleanupInfo : Option containerCleanupInfo) : cleanupExecResult Err :=
  match cleanupInfo with
  | none => ⟨[], [], []⟩
  | some _ =>
      let errors := ds.performPlatformSpecificContainerCleanup cleanupInfo
      ⟨errors, [cleanupInfo], errors.map (fun e => (containerNameOrID, e))⟩

/-- Result of `performPlatformSpecificContainerForContainer`: the
returned error slice, the registry after the call, and the traces
inherited from the cleanup-and-log helper. -/
structure platformStepResult (Err : Type) where
  errors : List Err
  registry : Registry
  capabilityCalls : List (Option containerCleanupInfo)
  loggedErrors : List (String × Err)

/-- Go `performPlatformSpecificContainerForContainer`: looks the
container up in the registry; when present, runs
`performPlatformSpecificContainerCleanupAndLogErrors` and clears the
registry entry only when the returned error slice is empty; when
absent, does nothing and returns no errors. -/
def performPlatformSpecificContainerForContainer (Err : Type)
    (ds : dockerService Err) (containerID : String) : platformStepResult Err :=
  match getContainerCleanupInfo ds.containerCleanupInfos containerID with
  | (cleanupInfo, true) =>
      let r := performPlatformSpecificContainerCleanupAndLogErrors Err ds containerID cleanupInfo
      if r.errors.length = 0 then
        ⟨r.errors, clearContainerCleanupInfo ds.containerCleanupInfos containerID,
          r.capabilityCalls, r.loggedErrors⟩
      else
        ⟨r.errors, ds.containerCleanupInfos, r.capabilityCalls, r.loggedErrors⟩
  | (_, false) => ⟨[], ds.containerCleanupInfos, [], []⟩

/-- Result of `RemoveContainer`: the Go `(*RemoveContainerResponse, error)`
pair as an `Except`, the registry after the call, and traces of the
calls made to the cleanup capability and to the backend
`client.RemoveContainer`, plus the logged errors. -/
structure removeContainerResult (Err : Type) where
  response : Except (goError Err) RemoveContainerResponse
  registry : Registry
  capabilityCalls : List (Option containerCleanupInfo)
  backendCalls : List (String × ContainerRemoveOptions)
  loggedErrors : List (String × Err)

/-- Go `RemoveContainer`: removes the container log symlink (returning
its error verbatim on failure), then runs the platform-specific cleanup
step (failing with an aggregated error naming the container when the
step returns a non-empty error slice), then asks the docker client to
remove the container with `RemoveVolumes: true, Force: true` (failing
with an error naming the container and the cause), and on full success
returns the empty response. -/
def RemoveContainer (Err : Type) (ds : dockerService Err)
    (r : RemoveContainerRequest) : removeContainerResult Err :=
  match ds.removeContainerLogSymlink r.ContainerId with
  | some err => ⟨Except.error (goError.raw err), ds.containerCleanupInfos, [], [], []⟩
  | none =>
      let step := performPlatformSpecificContainerForContainer Err ds r.ContainerId
      if step.errors.length ≠ 0 then
        ⟨Except.error (goError.failedPlatformCleanups r.ContainerId step.errors),
          step.registry, step.capabilityCalls, [], step.loggedErrors⟩
      else
        let opts : ContainerRemoveOptions := ⟨true, true⟩
        match ds.clientRemoveContainer r.ContainerId opts with
        | some err =>
            ⟨Except.error (goError.failedRemove r.ContainerId err), step.registry,
              step.capabilityCalls, [(r.ContainerId, opts)], step.loggedErrors⟩
        | none =>
            ⟨Except.ok ⟨⟩, step.registry, step.capabilityCalls,
              [(r.ContainerId, opts)], step.loggedErrors⟩

/-- Go `types.ContainerState` (the two timestamp fields used). -/
structure ContainerState where
  StartedAt : String
  FinishedAt : String
deriving DecidableEq, Repr

/-- Go `types.ContainerJSON` (the fields used by `getContainerTimestamps`). -/
structure ContainerJSON where
  Created : String
  State : ContainerState
deriving DecidableEq, Repr

/-- Result of `getContainerTimestamps`: the Go quadruple
`(createdAt, startedAt, finishedAt, err)` plus the trace of the strings
passed to `libdocker.ParseDockerTimestamp`, so that "later fields are
not parsed" is statable. -/
structure timestampsResult (Time Err : Type) where
  createdAt : Time
  startedAt : Time
  finishedAt : Time
  err : Option Err
  parseCalls : List String

/-- Go `getContainerTimestamps`, parameterised over
`libdocker.ParseDockerTimestamp` (defined outside this file; modelled
as `parse : String → Time × Option Err`, Go's `(time.Time, error)`
return) and over the zero value of `time.Time` (`zeroTime`, the value
of the `var createdAt, startedAt, finishedAt time.Time` declarations
before assignment).  Parses `Created`, then `State.StartedAt`, then
`State.FinishedAt`, returning at the first failure. -/
def getContainerTimestamps (Time Err : Type) (parse : String → Time × Option Err)
    (zeroTime : Time) (r : ContainerJSON) : timestampsResult Time Err :=
  match parse r.Created with
  | (createdAt, some e) => ⟨createdAt, zeroTime, zeroTime, some e, [r.Created]⟩
  | (createdAt, none) =>
      match parse r.State.StartedAt with
      | (startedAt, some e) =>
          ⟨createdAt, startedAt, zeroTime, some e, [r.Created, r.State.StartedAt]⟩
      | (startedAt, none) =>
          match parse r.State.FinishedAt with
          | (finishedAt, e) =>
              ⟨createdAt, startedAt, finishedAt, e,
                [r.Created, r.State.StartedAt, r.State.FinishedAt]⟩

/-! Concrete instances used to exercise the embedding at specific inputs. -/

/-- Registry holding a single entry: container `"abc"` with (empty,
non-nil) cleanup metadata. -/
def regAbc : Registry := fun k => if k = "abc" then some (some ⟨⟩) else none

/-- Empty registry. -/
def regEmpty : Registry := fun _ => none

/-- Service whose collaborators all succeed and whose cleanup capability
returns no errors. -/
def dsOk : dockerService String :=
  ⟨regAbc, fun _ => none, fun _ => [], fun _ _ => none⟩

/-- Service whose cleanup capability fails with two errors. -/
def dsCleanupFails : dockerService String :=
  ⟨regAbc, fun _ => none, fun _ => ["errA", "errB"], fun _ _ => none⟩

/-- Service whose log-symlink removal fails. -/
def dsSymlinkFails : dockerService String :=
  ⟨regAbc, fun _ => some "symlink removal failed", fun _ => ["errA"], fun _ _ => none⟩

/-- Service with an empty registry and a cleanup capability that would
fail if it were ever called. -/
def dsNoMetadata : dockerService String :=
  ⟨regEmpty, fun _ => none, fun _ => ["should never be called"], fun _ _ => none⟩

/-- Example timestamp parser for exercising `getContainerTimestamps`:
fails exactly on the string `"bad"`. -/
def parseEx : String → Int × Option String :=
  fun s => if s = "bad" then (0, some "cannot parse") else (1, none)

/-! Helper lemmas shared by several claim proofs. -/

/-- Unfolding lemma: the platform cleanup step on an id absent from the
registry. -/
theorem forContainer_absent (Err : Type) (ds : dockerService Err) (containerID : String)
    (h : ds.containerCleanupInfos containerID = none) :
    performPlatformSpecificContainerForContainer Err ds containerID =
      ⟨[], ds.containerCleanupInfos, [], []⟩ := by
  unfold performPlatformSpecificContainerForContainer getContainerCleanupInfo
  rw [h]

/-- Unfolding lemma: the platform cleanup step on an id present in the
registry. -/
theorem forContainer_present (Err : Type) (ds : dockerService Err) (containerID : String)
    (info : Option containerCleanupInfo)
    (h : ds.containerCleanupInfos containerID = some info) :
    performPlatformSpecificContainerForContainer Err ds containerID =
      (if (performPlatformSpecificContainerCleanupAndLogErrors Err ds containerID info).errors.length = 0 then
        ⟨(performPlatformSpecificContainerCleanupAndLogErrors Err ds containerID info).errors,
          clearContainerCleanupInfo ds.containerCleanupInfos containerID,
          (performPlatformSpecificContainerCleanupAndLogErrors Err ds containerID info).capabilityCalls,
          (performPlatformSpecificContainerCleanupAndLogErrors Err ds containerID info).loggedErrors⟩
      else
        ⟨(performPlatformSpecificContainerCleanupAndLogErrors Err ds containerID info).errors,
          ds.containerCleanupInfos,
          (performPlatformSpecificContainerCleanupAndLogErrors Err ds containerID info).capabilityCalls,
          (performPlatformSpecificContainerCleanupAndLogErrors Err ds containerID info).loggedErrors⟩) := by
  unfold performPlatformSpecificContainerForContainer getContainerCleanupInfo
  rw [h]

/-- A non-empty error slice from the platform cleanup step implies the
registry was left untouched and the id was present. -/
theorem forContainer_registry_of_errors (Err : Type) (ds : dockerService Err)
    (containerID : String)
    (h : (performPlatformSpecificContainerForContainer Err ds containerID).errors ≠ []) :
    ∃ info, ds.containerCleanupInfos containerID = some info ∧
      (performPlatformSpecificContainerForContainer Err ds containerID).registry =
        ds.containerCleanupInfos := by
  cases hreg : ds.containerCleanupInfos containerID with
  | none =>
      rw [forContainer_absent Err ds containerID hreg] at h
      simp at h
  | some info =>
      refine ⟨info, rfl, ?_⟩
      rw [forContainer_present Err ds containerID info hreg] at h ⊢
      by_cases hlen : (performPlatformSpecificContainerCleanupAndLogErrors Err ds containerID info).errors.length = 0
      · rw [if_pos hlen] at h
        exact absurd (List.length_eq_zero.mp hlen) h
      · rw [if_neg hlen]

/-- Unfolding lemma: `RemoveContainer` after a successful log-symlink
removal. -/
theorem removeContainer_symlink_ok_eq (Err : Type) (ds : dockerService Err)
    (r : RemoveContainerRequest)
    (h : ds.removeContainerLogSymlink r.ContainerId = none) :
    RemoveContainer Err ds r =
      (if (performPlatformSpecificContainerForContainer Err ds r.ContainerId).errors.length ≠ 0 then
        ⟨Except.error (goError.failedPlatformCleanups r.ContainerId
            (performPlatformSpecificContainerForContainer Err ds r.ContainerId).errors),
          (performPlatformSpecificContainerForContainer Err ds r.ContainerId).registry,
          (performPlatformSpecificContainerForContainer Err ds r.ContainerId).capabilityCalls, [],
          (performPlatformSpecificContainerForContainer Err ds r.ContainerId).loggedErrors⟩
      else
        match ds.clientRemoveContainer r.ContainerId ⟨true, true⟩ with
        | some err =>
            ⟨Except.error (goError.failedRemove r.ContainerId err),
              (performPlatformSpecificContainerForContainer Err ds r.ContainerId).registry,
              (performPlatformSpecificContainerForContainer Err ds r.ContainerId).capabilityCalls,
              [(r.ContainerId, ⟨true, true⟩)],
              (performPlatformSpecificContainerForContainer Err ds r.ContainerId).loggedErrors⟩
        | none =>
            ⟨Except.ok ⟨⟩,
              (performPlatformSpecificContainerForContainer Err ds r.ContainerId).registry,
              (performPlatformSpecificContainerForContainer Err ds r.ContainerId).capabilityCalls,
              [(r.ContainerId, ⟨true, true⟩)],
              (performPlatformSpecificContainerForContainer Err ds r.ContainerId).loggedErrors⟩) := by
  unfold RemoveContainer
  rw [h]

/-! Claim theorems. -/

/-- C1: for every container id with a registered entry, after one
invocation of `performPlatformSpecificContainerForContainer` the
registry entry is absent iff the cleanup step's error collection is
empty; when the collection is non-empty the entry is still present with
the same metadata. -/
theorem C1_clear_iff_empty_errors (Err : Type) (ds : dockerService Err)
    (containerID : String) (info : Option containerCleanupInfo)
    (h : ds.containerCleanupInfos containerID = some info) :
    ((performPlatformSpecificContainerForContainer Err ds containerID).registry containerID = none ↔
      (performPlatformSpecificContainerForContainer Err ds containerID).errors = []) ∧
    ((performPlatformSpecificContainerForContainer Err ds containerID).errors ≠ [] →
      (performPlatformSpecificContainerForContainer Err ds containerID).registry containerID =
        some info) := by
  rw [forContainer_present Err ds containerID info h]
  by_cases hlen : (performPlatformSpecificContainerCleanupAndLogErrors Err ds containerID info).errors.length = 0
  · rw [if_pos hlen]
    constructor
    · simp [clearContainerCleanupInfo, List.length_eq_zero.mp hlen]
    · intro hne
      exact absurd (List.length_eq_zero.mp hlen) hne
  · rw [if_neg hlen]
    refine ⟨⟨fun habs => ?_, fun hnil => ?_⟩, fun _ => h⟩
    · have habs2 : ds.containerCleanupInfos containerID = none := habs
      rw [h] at habs2
      exact Option.noConfusion habs2
    · have hnil2 : (performPlatformSpecificContainerCleanupAndLogErrors Err ds containerID info).errors = [] := hnil
      exact absurd (List.length_eq_zero.mpr hnil2) hlen

/-- C1 witness: with the capability failing on container `"abc"`, the
entry is retained; the error collection is non-empty. -/
theorem C1_clear_iff_empty_errors_witness :
    dsCleanupFails.containerCleanupInfos "abc" = some (some ⟨⟩) ∧
    (((performPlatformSpecificContainerForContainer String dsCleanupFails "abc").registry "abc" = none ↔
      (performPlatformSpecificContainerForContainer String dsCleanupFails "abc").errors = []) ∧
    ((performPlatformSpecificContainerForContainer String dsCleanupFails "abc").errors ≠ [] →
      (performPlatformSpecificContainerForContainer String dsCleanupFails "abc").registry "abc" =
        some (some ⟨⟩))) :=
  ⟨by decide, C1_clear_iff_empty_errors String dsCleanupFails "abc" (some ⟨⟩) (by decide)⟩

/-- C2: when the platform cleanup step returns a non-empty error slice,
`RemoveContainer` fails with the aggregated error naming the container
and carrying every underlying cleanup error, the backend removal call
is never made, and the registry entry is still present. -/
theorem C2_cleanup_failure_aborts (Err : Type) (ds : dockerService Err)
    (r : RemoveContainerRequest)
    (h1 : ds.removeContainerLogSymlink r.ContainerId = none)
    (h2 : (performPlatformSpecificContainerForContainer Err ds r.ContainerId).errors ≠ []) :
    (RemoveContainer Err ds r).response =
      Except.error (goError.failedPlatformCleanups r.ContainerId
        (performPlatformSpecificContainerForContainer Err ds r.ContainerId).errors) ∧
    (RemoveContainer Err ds r).backendCalls = [] ∧
    (∃ info, ds.containerCleanupInfos r.ContainerId = some info ∧
      (RemoveContainer Err ds r).registry r.ContainerId = some info) := by
  obtain ⟨info, hreg, hsame⟩ := forContainer_registry_of_errors Err ds r.ContainerId h2
  rw [removeContainer_symlink_ok_eq Err ds r h1]
  have hlen : (performPlatformSpecificContainerForContainer Err ds r.ContainerId).errors.length ≠ 0 :=
    fun hz => h2 (List.length_eq_zero.mp hz)
  rw [if_pos hlen]
  refine ⟨rfl, rfl, info, hreg, ?_⟩
  show (performPlatformSpecificContainerForContainer Err ds r.ContainerId).registry r.ContainerId = some info
  rw [hsame]
  exact hreg

/-- C2 witness: container `"abc"` with a failing capability: aggregated
error, no backend call, entry retained. -/
theorem C2_cleanup_failure_aborts_witness :
    (RemoveContainer String dsCleanupFails ⟨"abc"⟩).response =
      Except.error (goError.failedPlatformCleanups "abc"
        (performPlatformSpecificContainerForContainer String dsCleanupFails "abc").errors) ∧
    (RemoveContainer String dsCleanupFails ⟨"abc"⟩).backendCalls = [] ∧
    (∃ info, dsCleanupFails.containerCleanupInfos "abc" = some info ∧
      (RemoveContainer String dsCleanupFails ⟨"abc"⟩).registry "abc" = some info) :=
  C2_cleanup_failure_aborts String dsCleanupFails ⟨"abc"⟩ (by decide) (by decide)

/-- C3: when log-symlink removal fails, `RemoveContainer` returns that
very error, makes no cleanup-capability call and no backend call, and
leaves the registry untouched. -/
theorem C3_symlink_failure_short_circuits (Err : Type) (ds : dockerService Err)
    (r : RemoveContainerRequest) (e : Err)
    (h : ds.removeContainerLogSymlink r.ContainerId = some e) :
    RemoveContainer Err ds r =
      ⟨Except.error (goError.raw e), ds.containerCleanupInfos, [], [], []⟩ := by
  unfold RemoveContainer
  rw [h]

/-- C3 witness: the symlink-failing service at container `"abc"`. -/
theorem C3_symlink_failure_short_circuits_witness :
    RemoveContainer String dsSymlinkFails ⟨"abc"⟩ =
      ⟨Except.error (goError.raw "symlink removal failed"),
        dsSymlinkFails.containerCleanupInfos, [], [], []⟩ :=
  C3_symlink_failure_short_circuits String dsSymlinkFails ⟨"abc"⟩ "symlink removal failed" rfl

/-- C4: for a container id absent from the registry, the platform
cleanup step returns no errors, never calls the capability, and leaves
the registry exactly as it was. -/
theorem C4_absent_id_noop (Err : Type) (ds : dockerService Err) (containerID : String)
    (h : ds.containerCleanupInfos containerID = none) :
    performPlatformSpecificContainerForContainer Err ds containerID =
      ⟨[], ds.containerCleanupInfos, [], []⟩ :=
  forContainer_absent Err ds containerID h

/-- C4 witness: the empty-registry service at container `"ghi"`. -/
theorem C4_absent_id_noop_witness :
    performPlatformSpecificContainerForContainer String dsNoMetadata "ghi" =
      ⟨[], dsNoMetadata.containerCleanupInfos, [], []⟩ :=
  C4_absent_id_noop String dsNoMetadata "ghi" rfl

/-- C5: when symlink removal succeeds and the platform cleanup step
returns zero errors, `RemoveContainer` makes exactly one backend call
with `RemoveVolumes = true, Force = true`; on backend success the
result is the empty success response, on backend failure the result is
an error naming the container and the cause. -/
theorem C5_backend_removal_on_clean_path (Err : Type) (ds : dockerService Err)
    (r : RemoveContainerRequest)
    (h1 : ds.removeContainerLogSymlink r.ContainerId = none)
    (h2 : (performPlatformSpecificContainerForContainer Err ds r.ContainerId).errors = []) :
    (RemoveContainer Err ds r).backendCalls = [(r.ContainerId, ⟨true, true⟩)] ∧
    (ds.clientRemoveContainer r.ContainerId ⟨true, true⟩ = none →
      (RemoveContainer Err ds r).response = Except.ok ⟨⟩) ∧
    (∀ e, ds.clientRemoveContainer r.ContainerId ⟨true, true⟩ = some e →
      (RemoveContainer Err ds r).response =
        Except.error (goError.failedRemove r.ContainerId e)) := by
  rw [removeContainer_symlink_ok_eq Err ds r h1]
  have hlen : ¬ (performPlatformSpecificContainerForContainer Err ds r.ContainerId).errors.length ≠ 0 := by
    rw [h2]
    simp
  rw [if_neg hlen]
  cases hc : ds.clientRemoveContainer r.ContainerId ⟨true, true⟩ with
  | none =>
      exact ⟨rfl, fun _ => rfl, fun e he => Option.noConfusion he⟩
  | some err =>
      exact ⟨rfl, fun hnone => Option.noConfusion hnone,
        fun e he => Option.some.inj he ▸ rfl⟩

/-- C5 witness: the all-succeeding service at container `"abc"`: one
backend call with both flags and a success response. -/
theorem C5_backend_removal_on_clean_path_witness :
    (RemoveContainer String dsOk ⟨"abc"⟩).backendCalls = [("abc", ⟨true, true⟩)] ∧
    (dsOk.clientRemoveContainer "abc" ⟨true, true⟩ = none →
      (RemoveContainer String dsOk ⟨"abc"⟩).response = Except.ok ⟨⟩) ∧
    (∀ e, dsOk.clientRemoveContainer "abc" ⟨true, true⟩ = some e →
      (RemoveContainer String dsOk ⟨"abc"⟩).response =
        Except.error (goError.failedRemove "abc" e)) :=
  C5_backend_removal_on_clean_path String dsOk ⟨"abc"⟩ (by decide) (by decide)

/-- C6: the cleanup-and-log helper with nil (`none`) metadata is a
no-op: no errors, no capability call, nothing logged, for every
container identifier and every service. -/
theorem C6_nil_metadata_noop (Err : Type) (ds : dockerService Err)
    (containerNameOrID : String) :
    performPlatformSpecificContainerCleanupAndLogErrors Err ds containerNameOrID none =
      ⟨[], [], []⟩ :=
  rfl

/-- C7: `clearContainerCleanupInfo` is idempotent, clearing an absent
id is a no-op on the whole registry, and clearing never touches other
keys. -/
theorem C7_clear_idempotent (reg : Registry) (containerID : String) :
    clearContainerCleanupInfo (clearContainerCleanupInfo reg containerID) containerID =
      clearContainerCleanupInfo reg containerID ∧
    (reg containerID = none → clearContainerCleanupInfo reg containerID = reg) ∧
    (∀ k, k ≠ containerID → clearContainerCleanupInfo reg containerID k = reg k) := by
  refine ⟨funext fun k => ?_, fun h => funext fun k => ?_, fun k hk => ?_⟩
  · by_cases hk : k = containerID <;> simp [clearContainerCleanupInfo, hk]
  · by_cases hk : k = containerID
    · subst hk
      simp [clearContainerCleanupInfo, h]
    · simp [clearContainerCleanupInfo, hk]
  · simp [clearContainerCleanupInfo, hk]

/-- C7 witness: clearing `"zzz"` (absent) from the empty registry twice
equals clearing once, and clearing it once is a no-op. -/
theorem C7_clear_idempotent_witness :
    (clearContainerCleanupInfo (clearContainerCleanupInfo regEmpty "zzz") "zzz" =
      clearContainerCleanupInfo regEmpty "zzz") ∧
    clearContainerCleanupInfo regEmpty "zzz" = regEmpty ∧
    clearContainerCleanupInfo regEmpty "zzz" "other" = regEmpty "other" :=
  ⟨(C7_clear_idempotent regEmpty "zzz").1,
    (C7_clear_idempotent regEmpty "zzz").2.1 rfl,
    (C7_clear_idempotent regEmpty "zzz").2.2 "other" (by decide)⟩

/-- C8: `getContainerTimestamps` parses `Created`, then
`State.StartedAt`, then `State.FinishedAt`; the first failure aborts
the extraction, returning that field's parse error, and the later
fields are never passed to the parser (the parse trace stops at the
failing field). -/
theorem C8_timestamp_parse_order (Time Err : Type)
    (parse : String → Time × Option Err) (zeroTime : Time) (r : ContainerJSON) :
    (∀ t e, parse r.Created = (t, some e) →
      getContainerTimestamps Time Err parse zeroTime r =
        ⟨t, zeroTime, zeroTime, some e, [r.Created]⟩) ∧
    (∀ t1 t2 e, parse r.Created = (t1, none) → parse r.State.StartedAt = (t2, some e) →
      getContainerTimestamps Time Err parse zeroTime r =
        ⟨t1, t2, zeroTime, some e, [r.Created, r.State.StartedAt]⟩) ∧
    (∀ t1 t2 t3 e3, parse r.Created = (t1, none) → parse r.State.StartedAt = (t2, none) →
      parse r.State.FinishedAt = (t3, e3) →
      getContainerTimestamps Time Err parse zeroTime r =
        ⟨t1, t2, t3, e3, [r.Created, r.State.StartedAt, r.State.FinishedAt]⟩) := by
  refine ⟨fun t e h1 => ?_, fun t1 t2 e h1 h2 => ?_, fun t1 t2 t3 e3 h1 h2 h3 => ?_⟩
  · unfold getContainerTimestamps
    rw [h1]
  · unfold getContainerTimestamps
    rw [h1, h2]
  · unfold getContainerTimestamps
    rw [h1, h2, h3]

/-- C8 witness: a parser failing exactly on `"bad"`, a record whose
`Created` is `"bad"`: extraction stops with that error having parsed
only `Created`. -/
theorem C8_timestamp_parse_order_witness :
    getContainerTimestamps Int String parseEx 0 ⟨"bad", ⟨"sA", "sF"⟩⟩ =
      ⟨0, 0, 0, some "cannot parse", ["bad"]⟩ :=
  (C8_timestamp_parse_order Int String parseEx 0 ⟨"bad", ⟨"sA", "sF"⟩⟩).1 0 "cannot parse"
    (by decide)

/-- C9: `setContainerCleanupInfo` is last-writer-wins: a subsequent
`getContainerCleanupInfo` for the same id returns the new metadata with
`present = true`, whatever the registry held before. -/
theorem C9_set_then_get (reg : Registry) (containerID : String)
    (info : Option containerCleanupInfo) :
    getContainerCleanupInfo (setContainerCleanupInfo reg containerID info) containerID =
      (info, true) := by
  simp [getContainerCleanupInfo, setContainerCleanupInfo]

/-- C10: registry operations are per-key framed: for distinct ids `a`
and `b`, setting or clearing `a` leaves the entry for `b` (presence and
value) unchanged. -/
theorem C10_per_key_frame (reg : Registry) (a b : String)
    (info : Option containerCleanupInfo) (h : a ≠ b) :
    setContainerCleanupInfo reg a info b = reg b ∧
    clearContainerCleanupInfo reg a b = reg b := by
  have hb : b ≠ a := Ne.symm h
  constructor <;> simp [setContainerCleanupInfo, clearContainerCleanupInfo, hb]

/-- C10 witness: setting and clearing `"abc"` in the example registry
leaves the entry for `"xyz"` unchanged. -/
theorem C10_per_key_frame_witness :
    setContainerCleanupInfo regAbc "abc" (some ⟨⟩) "xyz" = regAbc "xyz" ∧
    clearContainerCleanupInfo regAbc "abc" "xyz" = regAbc "xyz" :=
  C10_per_key_frame regAbc "abc" "xyz" (some ⟨⟩) (by decide)
